import Mathlib

/-!
# Verification of `path-tracing-gl` core components

Shallow embedding of the repository's core components and proofs of the
specification claims about them:

* `Sources/Common/tools/Primitive.hpp` — the std140-style scene-primitive
  encoder (`Primitive::updateUniformBufferStd140` and the per-variant
  `writeToUniformBuffer` overrides);
* `Sources/Common/tools/Timer.hpp` — the frame timer (`Timer::updateTimer`);
* `Sources/Common/tools/Camera.hpp` — the camera transform engine
  (rotation-matrix constructors, model/view matrix maintenance, the
  placement integrator `updatePlacement`, and the velocity accessors).

`GLfloat` values carried by primitives are modelled as rationals (the encoder
only copies them, it never computes with them), timer ticks as integers
(nanosecond counts of `high_resolution_clock::time_point`), and camera
arithmetic over the reals (`glm` float arithmetic idealised as exact real
arithmetic).
-/

namespace PathTracingGL

/-! ## Buffer model for the std140 encoder

Every `glBufferSubData` call issued by `updateUniformBufferStd140` writes a
4-byte-aligned region whose size is a multiple of 4 (sizes 4, 8 and 12 at
offsets 0, 16, 32, 44, 48, 64, 80, 92, 96, 108, 112 relative to the slot).
We therefore model the uniform buffer at 32-bit-word granularity: the buffer
maps the byte offset of each aligned word to the word stored there.  A word
is either the 4 bytes of a `GLint` or the 4 bytes of a `GLfloat`; a word is
all-zero bytes exactly when it encodes integer `0` or float `0.0` (IEEE-754
`+0.0f` is the all-zero bit pattern). -/

/-- A 32-bit word of the uniform buffer: either a `GLint` or a `GLfloat`
(floats modelled as `ℚ`). -/
inductive Word32 where
  | i32 : ℤ → Word32
  | f32 : ℚ → Word32
  deriving DecidableEq, Repr

/-- A word whose four bytes are all zero: integer `0` or float `+0.0`. -/
def Word32.isZero (w : Word32) : Prop := w = .i32 0 ∨ w = .f32 0

instance : DecidablePred Word32.isZero := fun w =>
  inferInstanceAs (Decidable (w = .i32 0 ∨ w = .f32 0))

/-- The uniform buffer: byte offset of an aligned word ↦ stored word. -/
def Buffer : Type := ℕ → Word32

/-- Store one word at byte offset `off`. -/
def writeWord (buf : Buffer) (off : ℕ) (w : Word32) : Buffer :=
  fun i => if i = off then w else buf i

/-- `glBufferSubData(GL_UNIFORM_BUFFER, off, 4*data.length, data)`: store the
consecutive words `data` starting at byte offset `off`.  The byte size passed
by the source (4, 8 or 12) is the length of `data` times 4. -/
def glBufferSubData (buf : Buffer) (off : ℕ) : List Word32 → Buffer
  | [] => buf
  | w :: ws => glBufferSubData (writeWord buf off w) (off + 4) ws

/-- `glm::vec2` with rational components. -/
structure Vec2Q where
  x : ℚ
  y : ℚ
  deriving DecidableEq, Repr

/-- `glm::vec3` with rational components. -/
structure Vec3Q where
  x : ℚ
  y : ℚ
  z : ℚ
  deriving DecidableEq, Repr

/-- The zero `vec3`, `{0.0f, 0.0f, 0.0f}`. -/
def Vec3Q.zero : Vec3Q := ⟨0, 0, 0⟩

/-- The zero `vec2`, `{0.0f, 0.0f}`. -/
def Vec2Q.zero : Vec2Q := ⟨0, 0⟩

/-- `Primitive::Type` — primitive type tags (`eSphere = 1`, `ePlane = 2`,
`eRectangle = 3`, `eBox = 4`). -/
inductive PrimType where
  | eSphere
  | ePlane
  | eRectangle
  | eBox
  deriving DecidableEq, Repr

/-- The `GLint` value of a `Primitive::Type` tag. -/
def PrimType.tag : PrimType → ℤ
  | .eSphere => 1
  | .ePlane => 2
  | .eRectangle => 3
  | .eBox => 4

/-- `Primitive::MaterialType` — material type tags (`eLightEmitter = 0`,
`eLambert = 1`, `eMetal = 2`, `eDielectric = 3`). -/
inductive MaterialType where
  | eLightEmitter
  | eLambert
  | eMetal
  | eDielectric
  deriving DecidableEq, Repr

/-- The `GLint` value of a `Primitive::MaterialType` tag. -/
def MaterialType.tag : MaterialType → ℤ
  | .eLightEmitter => 0
  | .eLambert => 1
  | .eMetal => 2
  | .eDielectric => 3

/-- `Primitive::MaterialInfo`. -/
structure MaterialInfo where
  type : MaterialType := .eLambert
  albedo : Vec3Q := ⟨1, 1, 1⟩
  roughness : ℚ := 1
  refraction : ℚ := 3/2
  deriving DecidableEq, Repr

/-- `PRIMITIVE_SIZE` — the byte stride of one primitive slot. -/
def PRIMITIVE_SIZE : ℕ := 128

/-- `Primitive::updateUniformBufferStd140`: the shared field-by-field write.
Each line mirrors one `glBufferSubData` call of the source together with the
`offset += …` advance that follows it (running offsets `0, 16, 32, 44, 48,
64, 80, 92, 96, 108, 112` relative to the slot start); the byte sizes 4, 12
and 8 of the source calls appear as word lists of lengths 1, 3 and 2. -/
def updateUniformBufferStd140 (type : ℤ) (position orientation : Vec3Q)
    (sphereRadius : ℚ) (planeNormal : Vec3Q) (rectSizes : Vec2Q)
    (boxSizes : Vec3Q) (materialInfo : MaterialInfo)
    (buf : Buffer) (offset : ℕ) : Buffer :=
  let buf := glBufferSubData buf offset [.i32 type]
  let buf := glBufferSubData buf (offset + 16)
    [.f32 position.x, .f32 position.y, .f32 position.z]
  let buf := glBufferSubData buf (offset + 32)
    [.f32 orientation.x, .f32 orientation.y, .f32 orientation.z]
  let buf := glBufferSubData buf (offset + 44) [.f32 sphereRadius]
  let buf := glBufferSubData buf (offset + 48)
    [.f32 planeNormal.x, .f32 planeNormal.y, .f32 planeNormal.z]
  let buf := glBufferSubData buf (offset + 64) [.f32 rectSizes.x, .f32 rectSizes.y]
  let buf := glBufferSubData buf (offset + 80)
    [.f32 boxSizes.x, .f32 boxSizes.y, .f32 boxSizes.z]
  let buf := glBufferSubData buf (offset + 92) [.i32 materialInfo.type.tag]
  let buf := glBufferSubData buf (offset + 96)
    [.f32 materialInfo.albedo.x, .f32 materialInfo.albedo.y, .f32 materialInfo.albedo.z]
  let buf := glBufferSubData buf (offset + 108) [.f32 materialInfo.roughness]
  let buf := glBufferSubData buf (offset + 112) [.f32 materialInfo.refraction]
  buf

/-- The implemented primitive variants (`PrimitiveSphere`, `PrimitivePlane`,
`PrimitiveRectangle`; `eBox` has a tag but no class).  Each carries the
common `position_`, `orientation_`, `materialInfo_` fields plus its own
shape datum. -/
inductive Primitive where
  | sphere (position : Vec3Q) (orientation : Vec3Q) (materialInfo : MaterialInfo)
      (radius : ℚ)
  | plane (position : Vec3Q) (orientation : Vec3Q) (materialInfo : MaterialInfo)
      (normal : Vec3Q)
  | rectangle (position : Vec3Q) (orientation : Vec3Q) (materialInfo : MaterialInfo)
      (sizes : Vec2Q)
  deriving DecidableEq, Repr

/-- The virtual `writeToUniformBuffer(bufferId, index)` dispatch: each variant
calls `updateUniformBufferStd140` with its own type tag and shape fields (the
other shape fields passed as zero literals) at offset `index * PRIMITIVE_SIZE`. -/
def writeToUniformBuffer (p : Primitive) (buf : Buffer) (index : ℕ) : Buffer :=
  match p with
  | .sphere position orientation materialInfo radius =>
      updateUniformBufferStd140 PrimType.eSphere.tag position orientation
        radius Vec3Q.zero Vec2Q.zero Vec3Q.zero materialInfo
        buf (index * PRIMITIVE_SIZE)
  | .plane position orientation materialInfo normal =>
      updateUniformBufferStd140 PrimType.ePlane.tag position orientation
        0 normal Vec2Q.zero Vec3Q.zero materialInfo
        buf (index * PRIMITIVE_SIZE)
  | .rectangle position orientation materialInfo sizes =>
      updateUniformBufferStd140 PrimType.eRectangle.tag position orientation
        0 Vec3Q.zero sizes Vec3Q.zero materialInfo
        buf (index * PRIMITIVE_SIZE)

/-- Projections of the common fields of a primitive. -/
def Primitive.position : Primitive → Vec3Q
  | .sphere p _ _ _ => p
  | .plane p _ _ _ => p
  | .rectangle p _ _ _ => p

/-- Orientation field of a primitive. -/
def Primitive.orientation : Primitive → Vec3Q
  | .sphere _ o _ _ => o
  | .plane _ o _ _ => o
  | .rectangle _ o _ _ => o

/-- Material of a primitive. -/
def Primitive.materialInfo : Primitive → MaterialInfo
  | .sphere _ _ m _ => m
  | .plane _ _ m _ => m
  | .rectangle _ _ m _ => m

/-- The `GLint` type tag a variant passes to `updateUniformBufferStd140`. -/
def Primitive.typeTag : Primitive → ℤ
  | .sphere _ _ _ _ => PrimType.eSphere.tag
  | .plane _ _ _ _ => PrimType.ePlane.tag
  | .rectangle _ _ _ _ => PrimType.eRectangle.tag

/-- The shape scalar a variant passes (sphere radius; `0.0f` otherwise). -/
def Primitive.shapeScalar : Primitive → ℚ
  | .sphere _ _ _ r => r
  | .plane _ _ _ _ => 0
  | .rectangle _ _ _ _ => 0

/-- The shape `vec3` a variant passes (plane normal; zero otherwise). -/
def Primitive.shapeVec3 : Primitive → Vec3Q
  | .sphere _ _ _ _ => Vec3Q.zero
  | .plane _ _ _ n => n
  | .rectangle _ _ _ _ => Vec3Q.zero

/-- The shape `vec2` a variant passes (rectangle sizes; zero otherwise). -/
def Primitive.shapeVec2 : Primitive → Vec2Q
  | .sphere _ _ _ _ => Vec2Q.zero
  | .plane _ _ _ _ => Vec2Q.zero
  | .rectangle _ _ _ s => s

/-- The shape `vec3b` (box sizes) a variant passes — zero for all three
implemented variants. -/
def Primitive.shapeVec3b : Primitive → Vec3Q
  | .sphere _ _ _ _ => Vec3Q.zero
  | .plane _ _ _ _ => Vec3Q.zero
  | .rectangle _ _ _ _ => Vec3Q.zero

/-- A buffer whose every word is the nonzero `GLint` pattern `7`: the uniform
buffer is created with `glBufferData(…, nullptr, …)`, so its initial contents
are arbitrary. -/
def padBuf : Buffer := fun _ => Word32.i32 7

/-- A concrete `PrimitiveSphere` (default material, radius 1). -/
def spherePrim : Primitive :=
  .sphere ⟨0, 0, 0⟩ ⟨0, 0, 0⟩ ⟨.eLambert, ⟨1, 1, 1⟩, 1, 3/2⟩ 1

/-! ## Timer (`Sources/Common/tools/Timer.hpp`)

`time_point<high_resolution_clock>` values are modelled as their integer
nanosecond tick counts (the libstdc++ representation); `duration_cast` to
microseconds or milliseconds is C++ integer division, which truncates toward
zero (`Int.tdiv`).  The monotonic clock sample taken inside `updateTimer` is
passed in as the explicit argument `now`. -/

/-- `duration_cast<microseconds>(d).count()` for a nanosecond duration `d`. -/
def durationCastMicroseconds (d : ℤ) : ℤ := d.tdiv 1000

/-- `duration_cast<milliseconds>(d).count()` for a nanosecond duration `d`. -/
def durationCastMilliseconds (d : ℤ) : ℤ := d.tdiv 1000000

/-- The `tools::Timer` state. -/
structure Timer where
  currentFrameTick : ℤ
  previousFrameTick : ℤ
  lastFpsCounterUpdatedTime : ℤ
  initializationTime : ℤ
  framesCount : ℕ
  fps : ℕ
  fpsCounterReady : Bool
  delta : ℚ
  deriving DecidableEq, Repr

/-- `Timer::updateTimer`: shift the frame ticks, clear the FPS-ready flag,
recompute `delta_` in seconds, run the once-per-second FPS branch, and
finally increment the frame counter (the increment happens *after* the
branch, as in the source). -/
def updateTimer (now : ℤ) (t : Timer) : Timer :=
  let t := { t with previousFrameTick := t.currentFrameTick }
  let t := { t with currentFrameTick := now }
  let t := { t with fpsCounterReady := false }
  let t := { t with delta :=
    (durationCastMicroseconds (t.currentFrameTick - t.previousFrameTick) : ℚ) / 1000000 }
  let t :=
    if durationCastMilliseconds (t.currentFrameTick - t.lastFpsCounterUpdatedTime) > 1000 then
      { t with fps := t.framesCount, framesCount := 0,
               lastFpsCounterUpdatedTime := t.currentFrameTick,
               fpsCounterReady := true }
    else t
  { t with framesCount := t.framesCount + 1 }

/-- `Timer::getDelta`. -/
def Timer.getDelta (t : Timer) : ℚ := t.delta

/-- `Timer::getCurrentTime` — seconds since timer initialisation. -/
def Timer.getCurrentTime (t : Timer) : ℚ :=
  (durationCastMicroseconds (t.currentFrameTick - t.initializationTime) : ℚ) / 1000000

/-- `Timer::getFps`. -/
def Timer.getFps (t : Timer) : ℕ := t.fps

/-- `Timer::isFpsCounterReady`. -/
def Timer.isFpsCounterReady (t : Timer) : Bool := t.fpsCounterReady

/-- A concrete timer state: all ticks at 0, five frames accumulated. -/
def timer0 : Timer :=
  { currentFrameTick := 0, previousFrameTick := 0,
    lastFpsCounterUpdatedTime := 0, initializationTime := 0,
    framesCount := 5, fps := 0, fpsCounterReady := false, delta := 0 }

/-! ## Camera (`Sources/Common/tools/Camera.hpp`)

`glm` single-precision arithmetic is idealised as exact real arithmetic.
`glm` stores matrices column-major (`m[col][row]`) but its `operator*` is
ordinary matrix composition, so matrices are modelled as Mathlib
`Matrix (Fin 4) (Fin 4) ℝ` in the usual row-column convention; a `glm`
access `m[c][r]` is entry `(r, c)` here. -/

noncomputable section

/-- `glm::vec3` with real components. -/
structure Vec3 where
  x : ℝ
  y : ℝ
  z : ℝ

/-- Componentwise `operator+` of `glm::vec3` (used by `+=`). -/
instance : Add Vec3 := ⟨fun u v => ⟨u.x + v.x, u.y + v.y, u.z + v.z⟩⟩

/-- `glm::vec3 * float` (componentwise scaling). -/
def Vec3.scale (v : Vec3) (t : ℝ) : Vec3 := ⟨v.x * t, v.y * t, v.z * t⟩

/-- A 4×4 `glm::mat4`. -/
abbrev Mat4 := Matrix (Fin 4) (Fin 4) ℝ

/-- A 3×3 `glm::mat3`. -/
abbrev Mat3 := Matrix (Fin 3) (Fin 3) ℝ

/-- `glm::mat3 * glm::vec3` — ordinary matrix action on a column vector. -/
def mulVec3 (m : Mat3) (v : Vec3) : Vec3 :=
  ⟨m 0 0 * v.x + m 0 1 * v.y + m 0 2 * v.z,
   m 1 0 * v.x + m 1 1 * v.y + m 1 2 * v.z,
   m 2 0 * v.x + m 2 1 * v.y + m 2 2 * v.z⟩

/-- `glm::radians` — degrees to radians, `degrees * (π/180)`. -/
def radians (degrees : ℝ) : ℝ := degrees * (Real.pi / 180)

/-- `glm::normalize` for `vec3`: `v / sqrt(dot(v, v))`. -/
def normalize (v : Vec3) : Vec3 :=
  let len := Real.sqrt (v.x ^ 2 + v.y ^ 2 + v.z ^ 2)
  ⟨v.x / len, v.y / len, v.z / len⟩

/-- The axis-angle (Rodrigues) rotation matrix built inside `glm::rotate`,
embedded in 4×4 with an identity border; `glm`'s column-major entries
`Rotate[c][r]` appear here at `(r, c)`. -/
def rotationMatrix4 (angle : ℝ) (v : Vec3) : Mat4 :=
  let c := Real.cos angle
  let s := Real.sin angle
  let a := normalize v
  let t : Vec3 := ⟨(1 - c) * a.x, (1 - c) * a.y, (1 - c) * a.z⟩
  !![c + t.x * a.x, t.y * a.x - s * a.z, t.z * a.x + s * a.y, 0;
     t.x * a.y + s * a.z, c + t.y * a.y, t.z * a.y - s * a.x, 0;
     t.x * a.z - s * a.y, t.y * a.z + s * a.x, c + t.z * a.z, 0;
     0, 0, 0, 1]

/-- `glm::rotate(m, angle, v)`: `glm` assembles the result columns as
`Result[i] = m[0]*R[i][0] + m[1]*R[i][1] + m[2]*R[i][2]`, `Result[3] = m[3]`,
which is exactly the matrix product `m * rotationMatrix4 angle v`. -/
def rotate (m : Mat4) (angle : ℝ) (v : Vec3) : Mat4 :=
  m * rotationMatrix4 angle v

/-- `glm::translate(m, v)`: copy of `m` with fourth column
`m[0]*v.x + m[1]*v.y + m[2]*v.z + m[3]`. -/
def translate (m : Mat4) (v : Vec3) : Mat4 :=
  Matrix.of fun i j =>
    if j = 3 then m i 0 * v.x + m i 1 * v.y + m i 2 * v.z + m i 3 else m i j

/-- A `glm::quat` (components `w, x, y, z`, reals). -/
structure Quat where
  w : ℝ
  x : ℝ
  y : ℝ
  z : ℝ

/-- The `glm::quat(vec3 eulerAngle)` constructor: half-angle cosines and
sines `c = cos(e * 0.5)`, `s = sin(e * 0.5)` combined componentwise. -/
def quatFromEulerAngles (e : Vec3) : Quat :=
  let cx := Real.cos (e.x * (1/2)); let sx := Real.sin (e.x * (1/2))
  let cy := Real.cos (e.y * (1/2)); let sy := Real.sin (e.y * (1/2))
  let cz := Real.cos (e.z * (1/2)); let sz := Real.sin (e.z * (1/2))
  ⟨cx * cy * cz + sx * sy * sz,
   sx * cy * cz - cx * sy * sz,
   cx * sy * cz + sx * cy * sz,
   cx * cy * sz - sx * sy * cz⟩

/-- `glm` quaternion `operator*` (Hamilton product). -/
def quatMul (p q : Quat) : Quat :=
  ⟨p.w * q.w - p.x * q.x - p.y * q.y - p.z * q.z,
   p.w * q.x + p.x * q.w + p.y * q.z - p.z * q.y,
   p.w * q.y + p.y * q.w + p.z * q.x - p.x * q.z,
   p.w * q.z + p.z * q.w + p.x * q.y - p.y * q.x⟩

/-- `glm::mat3_cast` / `glm::toMat3` of a quaternion (entries transcribed
from `glm`, `Result[c][r]` at `(r, c)`). -/
def mat3_cast (q : Quat) : Mat3 :=
  !![1 - 2 * (q.y ^ 2 + q.z ^ 2), 2 * (q.x * q.y - q.w * q.z), 2 * (q.x * q.z + q.w * q.y);
     2 * (q.x * q.y + q.w * q.z), 1 - 2 * (q.x ^ 2 + q.z ^ 2), 2 * (q.y * q.z - q.w * q.x);
     2 * (q.x * q.z - q.w * q.y), 2 * (q.y * q.z + q.w * q.x), 1 - 2 * (q.x ^ 2 + q.y ^ 2)]

/-- Embed a 3×3 matrix into 4×4 with an identity border (the shape of
`glm::toMat4` on a quaternion-cast 3×3 block). -/
def toMat4 (A : Mat3) : Mat4 :=
  Matrix.of fun i j =>
    if hi : (i : ℕ) < 3 then
      if hj : (j : ℕ) < 3 then A ⟨i, hi⟩ ⟨j, hj⟩ else 0
    else if (j : ℕ) < 3 then 0 else 1

/-- `glm::perspectiveRH_ZO(fovy, aspect, zNear, zFar)`. -/
def perspectiveRH_ZO (fovy aspect zNear zFar : ℝ) : Mat4 :=
  let tanHalfFovy := Real.tan (fovy / 2)
  !![1 / (aspect * tanHalfFovy), 0, 0, 0;
     0, 1 / tanHalfFovy, 0, 0;
     0, 0, zFar / (zNear - zFar), -(zFar * zNear) / (zFar - zNear);
     0, 0, -1, 0]

/-- `glm::orthoRH_ZO(left, right, bottom, top, zNear, zFar)`. -/
def orthoRH_ZO (left right bottom top zNear zFar : ℝ) : Mat4 :=
  !![2 / (right - left), 0, 0, -(right + left) / (right - left);
     0, 2 / (top - bottom), 0, -(top + bottom) / (top - bottom);
     0, 0, -1 / (zFar - zNear), -zNear / (zFar - zNear);
     0, 0, 0, 1]

/-- `Camera::Axis`. -/
inductive Axis where
  | eAxisX
  | eAxisY
  | eAxisZ

/-- `Camera::ProjectionType`. -/
inductive ProjectionType where
  | ePerspective
  | eOrthogonal

/-- The `tools::Camera` state. -/
structure Camera where
  modelMatrix : Mat4
  viewMatrix : Mat4
  projectionMatrix : Mat4
  projectionInverseMatrix : Mat4
  position : Vec3
  orientation : Vec3
  projectionType : ProjectionType
  zNear : ℝ
  zFar : ℝ
  fov : ℝ
  aspect : ℝ
  velocityRel : Vec3
  velocity : Vec3

/-- `Camera::makeRotationMatrix(r0, r1, r2)`: sequential `glm::rotate` calls
about the unit axes in the given order, angles taken from `orientation_`
(degrees → radians). -/
def Camera.makeRotationMatrix (c : Camera) (r0 r1 r2 : Axis) : Mat4 :=
  let angles : Axis → ℝ := fun a =>
    match a with
    | .eAxisX => radians c.orientation.x
    | .eAxisY => radians c.orientation.y
    | .eAxisZ => radians c.orientation.z
  let vectors : Axis → Vec3 := fun a =>
    match a with
    | .eAxisX => ⟨1, 0, 0⟩
    | .eAxisY => ⟨0, 1, 0⟩
    | .eAxisZ => ⟨0, 0, 1⟩
  rotate (rotate (rotate 1 (angles r0) (vectors r0)) (angles r1) (vectors r1))
    (angles r2) (vectors r2)

/-- `Camera::makeRotationMatrixQuaternion`: `glm::toMat4` of the quaternion
built from the orientation Euler angles (degrees → radians). -/
def Camera.makeRotationMatrixQuaternion (c : Camera) : Mat4 :=
  toMat4 (mat3_cast (quatFromEulerAngles
    ⟨radians c.orientation.x, radians c.orientation.y, radians c.orientation.z⟩))

/-- `Camera::makeRotationMatrixQuaternion3x3`: `glm::toMat3` of the same
quaternion. -/
def Camera.makeRotationMatrixQuaternion3x3 (c : Camera) : Mat3 :=
  mat3_cast (quatFromEulerAngles
    ⟨radians c.orientation.x, radians c.orientation.y, radians c.orientation.z⟩)

/-- `Camera::updateModelMatrix`:
`modelMatrix_ = translate(mat4(1), position_) * makeRotationMatrixQuaternion()`. -/
def Camera.updateModelMatrix (c : Camera) : Camera :=
  { c with modelMatrix := translate 1 c.position * c.makeRotationMatrixQuaternion }

/-- `Camera::updateViewMatrix`: recompute the same model matrix and store its
`glm::inverse` (cofactor matrix over determinant, which over ℝ is Mathlib's
nonsingular inverse `⁻¹`). -/
def Camera.updateViewMatrix (c : Camera) : Camera :=
  { c with viewMatrix := (translate 1 c.position * c.makeRotationMatrixQuaternion)⁻¹ }

/-- `Camera::updateProjectionMatrix`: switch on the projection type and store
the projection matrix and its inverse. -/
def Camera.updateProjectionMatrix (c : Camera) : Camera :=
  let pm :=
    match c.projectionType with
    | .ePerspective => perspectiveRH_ZO (radians c.fov) c.aspect c.zNear c.zFar
    | .eOrthogonal =>
        orthoRH_ZO (-c.fov * c.aspect / 2) (c.fov * c.aspect / 2)
          (-c.fov / 2) (c.fov / 2) c.zNear c.zFar
  { c with projectionMatrix := pm, projectionInverseMatrix := pm⁻¹ }

/-- The main `Camera` constructor: store the fields, then
`updateModelMatrix(); updateViewMatrix(); updateProjectionMatrix()`. -/
def Camera.construct (position : Vec3) (orientation : Vec3) (fov : ℝ) : Camera :=
  (({ modelMatrix := 1, viewMatrix := 1, projectionMatrix := 1,
      projectionInverseMatrix := 1, position := position,
      orientation := orientation, projectionType := .ePerspective,
      zNear := 0.01, zFar := 1000, fov := fov, aspect := 1,
      velocityRel := ⟨0, 0, 0⟩, velocity := ⟨0, 0, 0⟩ : Camera
      }).updateModelMatrix).updateViewMatrix.updateProjectionMatrix

/-- The default `Camera` constructor (same initial values with `fov = 45`). -/
def cameraDefault : Camera := Camera.construct ⟨0, 0, 0⟩ ⟨0, 0, 0⟩ 45

/-- `Camera::setPosition(position, updateMatrices)`. -/
def Camera.setPosition (c : Camera) (position : Vec3)
    (updateMatrices : Bool) : Camera :=
  let c := { c with position := position }
  if updateMatrices then c.updateViewMatrix.updateModelMatrix else c

/-- `Camera::setOrientation(orientation, updateMatrices)`. -/
def Camera.setOrientation (c : Camera) (orientation : Vec3)
    (updateMatrices : Bool) : Camera :=
  let c := { c with orientation := orientation }
  if updateMatrices then c.updateViewMatrix.updateModelMatrix else c

/-- `Camera::setVelocity` — stores the *world-space* velocity field. -/
def Camera.setVelocity (c : Camera) (velocity : Vec3) : Camera :=
  { c with velocity := velocity }

/-- `Camera::setVelocityRel` — stores the camera-local velocity field. -/
def Camera.setVelocityRel (c : Camera) (velocity : Vec3) : Camera :=
  { c with velocityRel := velocity }

/-- `Camera::getVelocity` — as written in the source this returns
`velocityRel_`, the camera-local velocity field, not `velocity_`. -/
def Camera.getVelocity (c : Camera) : Vec3 := c.velocityRel

/-- `Camera::getVelocityRel`. -/
def Camera.getVelocityRel (c : Camera) : Vec3 := c.velocityRel

/-- `Camera::updatePlacement(deltaTime)`: integrate the world-space velocity,
then the rotated local velocity (rotation taken from the *current*
orientation), then refresh the model and view matrices. -/
def Camera.updatePlacement (c : Camera) (deltaTime : ℝ) : Camera :=
  let c := { c with position := c.position + c.velocity.scale deltaTime }
  let c := { c with position :=
    c.position + (mulVec3 c.makeRotationMatrixQuaternion3x3 c.velocityRel).scale deltaTime }
  c.updateModelMatrix.updateViewMatrix

/-- A camera mutation drawn from the three mutators of claim C2
(`setPosition`/`setOrientation` with the update flag `true`, and
`updatePlacement`). -/
inductive Cmd where
  | setPos (p : Vec3)
  | setOri (o : Vec3)
  | update (dt : ℝ)

/-- Run one mutator. -/
def applyCmd (c : Camera) : Cmd → Camera
  | .setPos p => c.setPosition p true
  | .setOri o => c.setOrientation o true
  | .update dt => c.updatePlacement dt

/-- Run a sequence of mutators left to right. -/
def applyCmds (c : Camera) (cmds : List Cmd) : Camera :=
  cmds.foldl applyCmd c

/-- Proof auxiliary (not part of the source): the homogeneous-degree-2
variant of the quaternion-to-matrix formula, with diagonal entries
`w²+x²−y²−z²` etc. instead of `1−2(…)`.  It agrees with `mat3_cast` on unit
quaternions and is multiplicative as a polynomial identity. -/
def Hmat (q : Quat) : Mat3 :=
  !![q.w ^ 2 + q.x ^ 2 - q.y ^ 2 - q.z ^ 2, 2 * (q.x * q.y - q.w * q.z), 2 * (q.x * q.z + q.w * q.y);
     2 * (q.x * q.y + q.w * q.z), q.w ^ 2 - q.x ^ 2 + q.y ^ 2 - q.z ^ 2, 2 * (q.y * q.z - q.w * q.x);
     2 * (q.x * q.z - q.w * q.y), 2 * (q.y * q.z + q.w * q.x), q.w ^ 2 - q.x ^ 2 - q.y ^ 2 + q.z ^ 2]

/-- Proof auxiliary: the squared norm of a quaternion. -/
def Quat.normSq (q : Quat) : ℝ := q.w ^ 2 + q.x ^ 2 + q.y ^ 2 + q.z ^ 2

/-- A concrete camera at orientation `(90, 90, 0)` degrees (inside the
claimed `[-180,180]` range), used to separate the two rotation
constructors. -/
def camC4 : Camera := Camera.construct ⟨0, 0, 0⟩ ⟨90, 90, 0⟩ 45

end


/-! ### Evaluation lemmas for the byte writes

`glBufferSubData` is only ever called with word lists of length 1, 2 or 3
(byte sizes 4, 8, 12); the following lemmas evaluate such a call at a word
offset it writes and at any offset it does not write. -/

/-- A 4-byte write read back at its own offset. -/
theorem glBufferSubData_one_eq (buf : Buffer) (off i : ℕ) (w : Word32)
    (h : i = off) : glBufferSubData buf off [w] i = w := by
  subst h; simp [glBufferSubData, writeWord]

/-- A 4-byte write leaves every other offset unchanged. -/
theorem glBufferSubData_one_ne (buf : Buffer) (off i : ℕ) (w : Word32)
    (h : i ≠ off) : glBufferSubData buf off [w] i = buf i := by
  simp [glBufferSubData, writeWord, h]

/-- First word of an 8-byte write. -/
theorem glBufferSubData_two_eq0 (buf : Buffer) (off i : ℕ) (w0 w1 : Word32)
    (h : i = off) : glBufferSubData buf off [w0, w1] i = w0 := by
  subst h
  simp only [glBufferSubData, writeWord]
  split_ifs <;> first | rfl | omega

/-- Second word of an 8-byte write. -/
theorem glBufferSubData_two_eq1 (buf : Buffer) (off i : ℕ) (w0 w1 : Word32)
    (h : i = off + 4) : glBufferSubData buf off [w0, w1] i = w1 := by
  subst h
  simp only [glBufferSubData, writeWord]
  split_ifs <;> first | rfl | omega

/-- An 8-byte write leaves every other offset unchanged. -/
theorem glBufferSubData_two_ne (buf : Buffer) (off i : ℕ) (w0 w1 : Word32)
    (h0 : i ≠ off) (h1 : i ≠ off + 4) :
    glBufferSubData buf off [w0, w1] i = buf i := by
  simp only [glBufferSubData, writeWord]
  split_ifs <;> first | rfl | omega

/-- First word of a 12-byte write. -/
theorem glBufferSubData_three_eq0 (buf : Buffer) (off i : ℕ) (w0 w1 w2 : Word32)
    (h : i = off) : glBufferSubData buf off [w0, w1, w2] i = w0 := by
  subst h
  simp only [glBufferSubData, writeWord]
  split_ifs <;> first | rfl | omega

/-- Second word of a 12-byte write. -/
theorem glBufferSubData_three_eq1 (buf : Buffer) (off i : ℕ) (w0 w1 w2 : Word32)
    (h : i = off + 4) : glBufferSubData buf off [w0, w1, w2] i = w1 := by
  subst h
  simp only [glBufferSubData, writeWord]
  split_ifs <;> first | rfl | omega

/-- Third word of a 12-byte write. -/
theorem glBufferSubData_three_eq2 (buf : Buffer) (off i : ℕ) (w0 w1 w2 : Word32)
    (h : i = off + 8) : glBufferSubData buf off [w0, w1, w2] i = w2 := by
  subst h
  simp only [glBufferSubData, writeWord]
  split_ifs <;> first | rfl | omega

/-- A 12-byte write leaves every other offset unchanged. -/
theorem glBufferSubData_three_ne (buf : Buffer) (off i : ℕ) (w0 w1 w2 : Word32)
    (h0 : i ≠ off) (h1 : i ≠ off + 4) (h2 : i ≠ off + 8) :
    glBufferSubData buf off [w0, w1, w2] i = buf i := by
  simp only [glBufferSubData, writeWord]
  split_ifs <;> first | rfl | omega

/-- Master evaluation lemma for `updateUniformBufferStd140`: the resulting
buffer agrees with the original everywhere except the 22 words actually
written, whose slot-relative byte offsets and contents are enumerated. -/
theorem updateUniformBufferStd140_apply (t : ℤ) (p o : Vec3Q) (r : ℚ)
    (n : Vec3Q) (rs : Vec2Q) (bs : Vec3Q) (m : MaterialInfo)
    (buf : Buffer) (off i : ℕ) :
    updateUniformBufferStd140 t p o r n rs bs m buf off i =
      if i = off then .i32 t
      else if i = off + 16 then .f32 p.x
      else if i = off + 20 then .f32 p.y
      else if i = off + 24 then .f32 p.z
      else if i = off + 32 then .f32 o.x
      else if i = off + 36 then .f32 o.y
      else if i = off + 40 then .f32 o.z
      else if i = off + 44 then .f32 r
      else if i = off + 48 then .f32 n.x
      else if i = off + 52 then .f32 n.y
      else if i = off + 56 then .f32 n.z
      else if i = off + 64 then .f32 rs.x
      else if i = off + 68 then .f32 rs.y
      else if i = off + 80 then .f32 bs.x
      else if i = off + 84 then .f32 bs.y
      else if i = off + 88 then .f32 bs.z
      else if i = off + 92 then .i32 m.type.tag
      else if i = off + 96 then .f32 m.albedo.x
      else if i = off + 100 then .f32 m.albedo.y
      else if i = off + 104 then .f32 m.albedo.z
      else if i = off + 108 then .f32 m.roughness
      else if i = off + 112 then .f32 m.refraction
      else buf i := by
  simp only [updateUniformBufferStd140]
  by_cases h0 : i = off
  · rw [if_pos h0]
    simp (disch := omega) only [glBufferSubData_one_eq, glBufferSubData_one_ne,
      glBufferSubData_two_eq0, glBufferSubData_two_eq1, glBufferSubData_two_ne,
      glBufferSubData_three_eq0, glBufferSubData_three_eq1,
      glBufferSubData_three_eq2, glBufferSubData_three_ne]
  rw [if_neg h0]
  by_cases h1 : i = off + 16
  · rw [if_pos h1]
    simp (disch := omega) only [glBufferSubData_one_eq, glBufferSubData_one_ne,
      glBufferSubData_two_eq0, glBufferSubData_two_eq1, glBufferSubData_two_ne,
      glBufferSubData_three_eq0, glBufferSubData_three_eq1,
      glBufferSubData_three_eq2, glBufferSubData_three_ne]
  rw [if_neg h1]
  by_cases h2 : i = off + 20
  · rw [if_pos h2]
    simp (disch := omega) only [glBufferSubData_one_eq, glBufferSubData_one_ne,
      glBufferSubData_two_eq0, glBufferSubData_two_eq1, glBufferSubData_two_ne,
      glBufferSubData_three_eq0, glBufferSubData_three_eq1,
      glBufferSubData_three_eq2, glBufferSubData_three_ne]
  rw [if_neg h2]
  by_cases h3 : i = off + 24
  · rw [if_pos h3]
    simp (disch := omega) only [glBufferSubData_one_eq, glBufferSubData_one_ne,
      glBufferSubData_two_eq0, glBufferSubData_two_eq1, glBufferSubData_two_ne,
      glBufferSubData_three_eq0, glBufferSubData_three_eq1,
      glBufferSubData_three_eq2, glBufferSubData_three_ne]
  rw [if_neg h3]
  by_cases h4 : i = off + 32
  · rw [if_pos h4]
    simp (disch := omega) only [glBufferSubData_one_eq, glBufferSubData_one_ne,
      glBufferSubData_two_eq0, glBufferSubData_two_eq1, glBufferSubData_two_ne,
      glBufferSubData_three_eq0, glBufferSubData_three_eq1,
      glBufferSubData_three_eq2, glBufferSubData_three_ne]
  rw [if_neg h4]
  by_cases h5 : i = off + 36
  · rw [if_pos h5]
    simp (disch := omega) only [glBufferSubData_one_eq, glBufferSubData_one_ne,
      glBufferSubData_two_eq0, glBufferSubData_two_eq1, glBufferSubData_two_ne,
      glBufferSubData_three_eq0, glBufferSubData_three_eq1,
      glBufferSubData_three_eq2, glBufferSubData_three_ne]
  rw [if_neg h5]
  by_cases h6 : i = off + 40
  · rw [if_pos h6]
    simp (disch := omega) only [glBufferSubData_one_eq, glBufferSubData_one_ne,
      glBufferSubData_two_eq0, glBufferSubData_two_eq1, glBufferSubData_two_ne,
      glBufferSubData_three_eq0, glBufferSubData_three_eq1,
      glBufferSubData_three_eq2, glBufferSubData_three_ne]
  rw [if_neg h6]
  by_cases h7 : i = off + 44
  · rw [if_pos h7]
    simp (disch := omega) only [glBufferSubData_one_eq, glBufferSubData_one_ne,
      glBufferSubData_two_eq0, glBufferSubData_two_eq1, glBufferSubData_two_ne,
      glBufferSubData_three_eq0, glBufferSubData_three_eq1,
      glBufferSubData_three_eq2, glBufferSubData_three_ne]
  rw [if_neg h7]
  by_cases h8 : i = off + 48
  · rw [if_pos h8]
    simp (disch := omega) only [glBufferSubData_one_eq, glBufferSubData_one_ne,
      glBufferSubData_two_eq0, glBufferSubData_two_eq1, glBufferSubData_two_ne,
      glBufferSubData_three_eq0, glBufferSubData_three_eq1,
      glBufferSubData_three_eq2, glBufferSubData_three_ne]
  rw [if_neg h8]
  by_cases h9 : i = off + 52
  · rw [if_pos h9]
    simp (disch := omega) only [glBufferSubData_one_eq, glBufferSubData_one_ne,
      glBufferSubData_two_eq0, glBufferSubData_two_eq1, glBufferSubData_two_ne,
      glBufferSubData_three_eq0, glBufferSubData_three_eq1,
      glBufferSubData_three_eq2, glBufferSubData_three_ne]
  rw [if_neg h9]
  by_cases h10 : i = off + 56
  · rw [if_pos h10]
    simp (disch := omega) only [glBufferSubData_one_eq, glBufferSubData_one_ne,
      glBufferSubData_two_eq0, glBufferSubData_two_eq1, glBufferSubData_two_ne,
      glBufferSubData_three_eq0, glBufferSubData_three_eq1,
      glBufferSubData_three_eq2, glBufferSubData_three_ne]
  rw [if_neg h10]
  by_cases h11 : i = off + 64
  · rw [if_pos h11]
    simp (disch := omega) only [glBufferSubData_one_eq, glBufferSubData_one_ne,
      glBufferSubData_two_eq0, glBufferSubData_two_eq1, glBufferSubData_two_ne,
      glBufferSubData_three_eq0, glBufferSubData_three_eq1,
      glBufferSubData_three_eq2, glBufferSubData_three_ne]
  rw [if_neg h11]
  by_cases h12 : i = off + 68
  · rw [if_pos h12]
    simp (disch := omega) only [glBufferSubData_one_eq, glBufferSubData_one_ne,
      glBufferSubData_two_eq0, glBufferSubData_two_eq1, glBufferSubData_two_ne,
      glBufferSubData_three_eq0, glBufferSubData_three_eq1,
      glBufferSubData_three_eq2, glBufferSubData_three_ne]
  rw [if_neg h12]
  by_cases h13 : i = off + 80
  · rw [if_pos h13]
    simp (disch := omega) only [glBufferSubData_one_eq, glBufferSubData_one_ne,
      glBufferSubData_two_eq0, glBufferSubData_two_eq1, glBufferSubData_two_ne,
      glBufferSubData_three_eq0, glBufferSubData_three_eq1,
      glBufferSubData_three_eq2, glBufferSubData_three_ne]
  rw [if_neg h13]
  by_cases h14 : i = off + 84
  · rw [if_pos h14]
    simp (disch := omega) only [glBufferSubData_one_eq, glBufferSubData_one_ne,
      glBufferSubData_two_eq0, glBufferSubData_two_eq1, glBufferSubData_two_ne,
      glBufferSubData_three_eq0, glBufferSubData_three_eq1,
      glBufferSubData_three_eq2, glBufferSubData_three_ne]
  rw [if_neg h14]
  by_cases h15 : i = off + 88
  · rw [if_pos h15]
    simp (disch := omega) only [glBufferSubData_one_eq, glBufferSubData_one_ne,
      glBufferSubData_two_eq0, glBufferSubData_two_eq1, glBufferSubData_two_ne,
      glBufferSubData_three_eq0, glBufferSubData_three_eq1,
      glBufferSubData_three_eq2, glBufferSubData_three_ne]
  rw [if_neg h15]
  by_cases h16 : i = off + 92
  · rw [if_pos h16]
    simp (disch := omega) only [glBufferSubData_one_eq, glBufferSubData_one_ne,
      glBufferSubData_two_eq0, glBufferSubData_two_eq1, glBufferSubData_two_ne,
      glBufferSubData_three_eq0, glBufferSubData_three_eq1,
      glBufferSubData_three_eq2, glBufferSubData_three_ne]
  rw [if_neg h16]
  by_cases h17 : i = off + 96
  · rw [if_pos h17]
    simp (disch := omega) only [glBufferSubData_one_eq, glBufferSubData_one_ne,
      glBufferSubData_two_eq0, glBufferSubData_two_eq1, glBufferSubData_two_ne,
      glBufferSubData_three_eq0, glBufferSubData_three_eq1,
      glBufferSubData_three_eq2, glBufferSubData_three_ne]
  rw [if_neg h17]
  by_cases h18 : i = off + 100
  · rw [if_pos h18]
    simp (disch := omega) only [glBufferSubData_one_eq, glBufferSubData_one_ne,
      glBufferSubData_two_eq0, glBufferSubData_two_eq1, glBufferSubData_two_ne,
      glBufferSubData_three_eq0, glBufferSubData_three_eq1,
      glBufferSubData_three_eq2, glBufferSubData_three_ne]
  rw [if_neg h18]
  by_cases h19 : i = off + 104
  · rw [if_pos h19]
    simp (disch := omega) only [glBufferSubData_one_eq, glBufferSubData_one_ne,
      glBufferSubData_two_eq0, glBufferSubData_two_eq1, glBufferSubData_two_ne,
      glBufferSubData_three_eq0, glBufferSubData_three_eq1,
      glBufferSubData_three_eq2, glBufferSubData_three_ne]
  rw [if_neg h19]
  by_cases h20 : i = off + 108
  · rw [if_pos h20]
    simp (disch := omega) only [glBufferSubData_one_eq, glBufferSubData_one_ne,
      glBufferSubData_two_eq0, glBufferSubData_two_eq1, glBufferSubData_two_ne,
      glBufferSubData_three_eq0, glBufferSubData_three_eq1,
      glBufferSubData_three_eq2, glBufferSubData_three_ne]
  rw [if_neg h20]
  by_cases h21 : i = off + 112
  · rw [if_pos h21]
    simp (disch := omega) only [glBufferSubData_one_eq, glBufferSubData_one_ne,
      glBufferSubData_two_eq0, glBufferSubData_two_eq1, glBufferSubData_two_ne,
      glBufferSubData_three_eq0, glBufferSubData_three_eq1,
      glBufferSubData_three_eq2, glBufferSubData_three_ne]
  rw [if_neg h21]
  simp (disch := omega) only [glBufferSubData_one_eq, glBufferSubData_one_ne,
      glBufferSubData_two_eq0, glBufferSubData_two_eq1, glBufferSubData_two_ne,
      glBufferSubData_three_eq0, glBufferSubData_three_eq1,
      glBufferSubData_three_eq2, glBufferSubData_three_ne]



/-- Master evaluation lemma for the virtual `writeToUniformBuffer` dispatch:
for every variant the resulting buffer, read at any word offset, is either
one of the 22 words written into slot `k` (`PRIMITIVE_SIZE = 128` unfolded)
or the original content. -/
theorem writeToUniformBuffer_apply (p : Primitive) (buf : Buffer) (k i : ℕ) :
    writeToUniformBuffer p buf k i =
      if i = k * 128 then .i32 p.typeTag
      else if i = k * 128 + 16 then .f32 p.position.x
      else if i = k * 128 + 20 then .f32 p.position.y
      else if i = k * 128 + 24 then .f32 p.position.z
      else if i = k * 128 + 32 then .f32 p.orientation.x
      else if i = k * 128 + 36 then .f32 p.orientation.y
      else if i = k * 128 + 40 then .f32 p.orientation.z
      else if i = k * 128 + 44 then .f32 p.shapeScalar
      else if i = k * 128 + 48 then .f32 p.shapeVec3.x
      else if i = k * 128 + 52 then .f32 p.shapeVec3.y
      else if i = k * 128 + 56 then .f32 p.shapeVec3.z
      else if i = k * 128 + 64 then .f32 p.shapeVec2.x
      else if i = k * 128 + 68 then .f32 p.shapeVec2.y
      else if i = k * 128 + 80 then .f32 p.shapeVec3b.x
      else if i = k * 128 + 84 then .f32 p.shapeVec3b.y
      else if i = k * 128 + 88 then .f32 p.shapeVec3b.z
      else if i = k * 128 + 92 then .i32 p.materialInfo.type.tag
      else if i = k * 128 + 96 then .f32 p.materialInfo.albedo.x
      else if i = k * 128 + 100 then .f32 p.materialInfo.albedo.y
      else if i = k * 128 + 104 then .f32 p.materialInfo.albedo.z
      else if i = k * 128 + 108 then .f32 p.materialInfo.roughness
      else if i = k * 128 + 112 then .f32 p.materialInfo.refraction
      else buf i := by
  cases p <;>
    simp only [writeToUniformBuffer, updateUniformBufferStd140_apply,
      PRIMITIVE_SIZE, Primitive.typeTag, Primitive.position, Primitive.orientation,
      Primitive.materialInfo, Primitive.shapeScalar, Primitive.shapeVec3,
      Primitive.shapeVec2, Primitive.shapeVec3b]

/-- C1: for every primitive variant (Sphere, Plane, Rectangle) and every slot
index `k`, `writeToUniformBuffer` writes the slot starting at byte offset
`k*128` with the fixed std140-style layout: type tag (1=Sphere, 2=Plane,
3=Rectangle, 4=Box) at offset 0, position at 16, orientation at 32, shape
scalar (sphere radius) at 44, shape vec3 (plane normal) at 48, shape vec2
(rectangle size) at 64, shape vec3b (box size) at 80, material type tag at
92, albedo at 96, roughness at 108 and refraction index at 112, all offsets
relative to the slot start. -/
theorem slot_layout_c1 (p : Primitive) (buf : Buffer) (k : ℕ) :
    PrimType.eSphere.tag = 1 ∧ PrimType.ePlane.tag = 2 ∧
    PrimType.eRectangle.tag = 3 ∧ PrimType.eBox.tag = 4 ∧
    (writeToUniformBuffer p buf k) (k * 128) = .i32 p.typeTag ∧
    (writeToUniformBuffer p buf k) (k * 128 + 16) = .f32 p.position.x ∧
    (writeToUniformBuffer p buf k) (k * 128 + 20) = .f32 p.position.y ∧
    (writeToUniformBuffer p buf k) (k * 128 + 24) = .f32 p.position.z ∧
    (writeToUniformBuffer p buf k) (k * 128 + 32) = .f32 p.orientation.x ∧
    (writeToUniformBuffer p buf k) (k * 128 + 36) = .f32 p.orientation.y ∧
    (writeToUniformBuffer p buf k) (k * 128 + 40) = .f32 p.orientation.z ∧
    (writeToUniformBuffer p buf k) (k * 128 + 44) = .f32 p.shapeScalar ∧
    (writeToUniformBuffer p buf k) (k * 128 + 48) = .f32 p.shapeVec3.x ∧
    (writeToUniformBuffer p buf k) (k * 128 + 52) = .f32 p.shapeVec3.y ∧
    (writeToUniformBuffer p buf k) (k * 128 + 56) = .f32 p.shapeVec3.z ∧
    (writeToUniformBuffer p buf k) (k * 128 + 64) = .f32 p.shapeVec2.x ∧
    (writeToUniformBuffer p buf k) (k * 128 + 68) = .f32 p.shapeVec2.y ∧
    (writeToUniformBuffer p buf k) (k * 128 + 80) = .f32 p.shapeVec3b.x ∧
    (writeToUniformBuffer p buf k) (k * 128 + 84) = .f32 p.shapeVec3b.y ∧
    (writeToUniformBuffer p buf k) (k * 128 + 88) = .f32 p.shapeVec3b.z ∧
    (writeToUniformBuffer p buf k) (k * 128 + 92) = .i32 p.materialInfo.type.tag ∧
    (writeToUniformBuffer p buf k) (k * 128 + 96) = .f32 p.materialInfo.albedo.x ∧
    (writeToUniformBuffer p buf k) (k * 128 + 100) = .f32 p.materialInfo.albedo.y ∧
    (writeToUniformBuffer p buf k) (k * 128 + 104) = .f32 p.materialInfo.albedo.z ∧
    (writeToUniformBuffer p buf k) (k * 128 + 108) = .f32 p.materialInfo.roughness ∧
    (writeToUniformBuffer p buf k) (k * 128 + 112) = .f32 p.materialInfo.refraction := by
  simp (disch := omega) only [writeToUniformBuffer_apply, if_pos, if_neg, if_true,
    eq_self_iff_true, PrimType.tag, and_self]

/-- C7: encoding a primitive at slot `k` never mutates any byte offset of
the target buffer outside the half-open range `[128k, 128k+128)`. -/
theorem slot_disjoint_c7 (p : Primitive) (buf : Buffer) (k i : ℕ)
    (h : i < k * 128 ∨ k * 128 + 128 ≤ i) :
    writeToUniformBuffer p buf k i = buf i := by
  simp (disch := omega) only [writeToUniformBuffer_apply, if_neg]

/-- C8: `writeToUniformBuffer` is pure and idempotent — re-encoding the same
primitive state at the same slot leaves the buffer exactly as the first
encoding left it, so both calls produce byte-identical slot contents. -/
theorem idempotent_c8 (p : Primitive) (buf : Buffer) (k : ℕ) :
    writeToUniformBuffer p (writeToUniformBuffer p buf k) k =
      writeToUniformBuffer p buf k := by
  funext i
  rw [writeToUniformBuffer_apply, writeToUniformBuffer_apply]
  by_cases h0 : i = k * 128
  · simp only [if_pos h0]
  simp only [if_neg h0]
  by_cases h1 : i = k * 128 + 16
  · simp only [if_neg h0, if_pos h1]
  simp only [if_neg h1]
  by_cases h2 : i = k * 128 + 20
  · simp only [if_neg h0, if_neg h1, if_pos h2]
  simp only [if_neg h2]
  by_cases h3 : i = k * 128 + 24
  · simp only [if_neg h0, if_neg h1, if_neg h2, if_pos h3]
  simp only [if_neg h3]
  by_cases h4 : i = k * 128 + 32
  · simp only [if_neg h0, if_neg h1, if_neg h2, if_neg h3, if_pos h4]
  simp only [if_neg h4]
  by_cases h5 : i = k * 128 + 36
  · simp only [if_neg h0, if_neg h1, if_neg h2, if_neg h3, if_neg h4, if_pos h5]
  simp only [if_neg h5]
  by_cases h6 : i = k * 128 + 40
  · simp only [if_neg h0, if_neg h1, if_neg h2, if_neg h3, if_neg h4, if_neg h5, if_pos h6]
  simp only [if_neg h6]
  by_cases h7 : i = k * 128 + 44
  · simp only [if_neg h0, if_neg h1, if_neg h2, if_neg h3, if_neg h4, if_neg h5, if_neg h6, if_pos h7]
  simp only [if_neg h7]
  by_cases h8 : i = k * 128 + 48
  · simp only [if_neg h0, if_neg h1, if_neg h2, if_neg h3, if_neg h4, if_neg h5, if_neg h6, if_neg h7, if_pos h8]
  simp only [if_neg h8]
  by_cases h9 : i = k * 128 + 52
  · simp only [if_neg h0, if_neg h1, if_neg h2, if_neg h3, if_neg h4, if_neg h5, if_neg h6, if_neg h7, if_neg h8, if_pos h9]
  simp only [if_neg h9]
  by_cases h10 : i = k * 128 + 56
  · simp only [if_neg h0, if_neg h1, if_neg h2, if_neg h3, if_neg h4, if_neg h5, if_neg h6, if_neg h7, if_neg h8, if_neg h9, if_pos h10]
  simp only [if_neg h10]
  by_cases h11 : i = k * 128 + 64
  · simp only [if_neg h0, if_neg h1, if_neg h2, if_neg h3, if_neg h4, if_neg h5, if_neg h6, if_neg h7, if_neg h8, if_neg h9, if_neg h10, if_pos h11]
  simp only [if_neg h11]
  by_cases h12 : i = k * 128 + 68
  · simp only [if_neg h0, if_neg h1, if_neg h2, if_neg h3, if_neg h4, if_neg h5, if_neg h6, if_neg h7, if_neg h8, if_neg h9, if_neg h10, if_neg h11, if_pos h12]
  simp only [if_neg h12]
  by_cases h13 : i = k * 128 + 80
  · simp only [if_neg h0, if_neg h1, if_neg h2, if_neg h3, if_neg h4, if_neg h5, if_neg h6, if_neg h7, if_neg h8, if_neg h9, if_neg h10, if_neg h11, if_neg h12, if_pos h13]
  simp only [if_neg h13]
  by_cases h14 : i = k * 128 + 84
  · simp only [if_neg h0, if_neg h1, if_neg h2, if_neg h3, if_neg h4, if_neg h5, if_neg h6, if_neg h7, if_neg h8, if_neg h9, if_neg h10, if_neg h11, if_neg h12, if_neg h13, if_pos h14]
  simp only [if_neg h14]
  by_cases h15 : i = k * 128 + 88
  · simp only [if_neg h0, if_neg h1, if_neg h2, if_neg h3, if_neg h4, if_neg h5, if_neg h6, if_neg h7, if_neg h8, if_neg h9, if_neg h10, if_neg h11, if_neg h12, if_neg h13, if_neg h14, if_pos h15]
  simp only [if_neg h15]
  by_cases h16 : i = k * 128 + 92
  · simp only [if_neg h0, if_neg h1, if_neg h2, if_neg h3, if_neg h4, if_neg h5, if_neg h6, if_neg h7, if_neg h8, if_neg h9, if_neg h10, if_neg h11, if_neg h12, if_neg h13, if_neg h14, if_neg h15, if_pos h16]
  simp only [if_neg h16]
  by_cases h17 : i = k * 128 + 96
  · simp only [if_neg h0, if_neg h1, if_neg h2, if_neg h3, if_neg h4, if_neg h5, if_neg h6, if_neg h7, if_neg h8, if_neg h9, if_neg h10, if_neg h11, if_neg h12, if_neg h13, if_neg h14, if_neg h15, if_neg h16, if_pos h17]
  simp only [if_neg h17]
  by_cases h18 : i = k * 128 + 100
  · simp only [if_neg h0, if_neg h1, if_neg h2, if_neg h3, if_neg h4, if_neg h5, if_neg h6, if_neg h7, if_neg h8, if_neg h9, if_neg h10, if_neg h11, if_neg h12, if_neg h13, if_neg h14, if_neg h15, if_neg h16, if_neg h17, if_pos h18]
  simp only [if_neg h18]
  by_cases h19 : i = k * 128 + 104
  · simp only [if_neg h0, if_neg h1, if_neg h2, if_neg h3, if_neg h4, if_neg h5, if_neg h6, if_neg h7, if_neg h8, if_neg h9, if_neg h10, if_neg h11, if_neg h12, if_neg h13, if_neg h14, if_neg h15, if_neg h16, if_neg h17, if_neg h18, if_pos h19]
  simp only [if_neg h19]
  by_cases h20 : i = k * 128 + 108
  · simp only [if_neg h0, if_neg h1, if_neg h2, if_neg h3, if_neg h4, if_neg h5, if_neg h6, if_neg h7, if_neg h8, if_neg h9, if_neg h10, if_neg h11, if_neg h12, if_neg h13, if_neg h14, if_neg h15, if_neg h16, if_neg h17, if_neg h18, if_neg h19, if_pos h20]
  simp only [if_neg h20]
  by_cases h21 : i = k * 128 + 112
  · simp only [if_neg h0, if_neg h1, if_neg h2, if_neg h3, if_neg h4, if_neg h5, if_neg h6, if_neg h7, if_neg h8, if_neg h9, if_neg h10, if_neg h11, if_neg h12, if_neg h13, if_neg h14, if_neg h15, if_neg h16, if_neg h17, if_neg h18, if_neg h19, if_neg h20, if_pos h21]
  simp only [if_neg h21]

/-- Witness for C7 at a concrete primitive, buffer, slot and offset. -/
theorem slot_disjoint_c7_witness :
    (5 < 1 * 128 ∨ 1 * 128 + 128 ≤ 5) ∧
      writeToUniformBuffer spherePrim padBuf 1 5 = padBuf 5 :=
  ⟨Or.inl (by norm_num),
    slot_disjoint_c7 spherePrim padBuf 1 5 (Or.inl (by norm_num))⟩

/-- C6 counterexample: the trailing padding bytes of a slot are *not*
zero-filled by the encoder — encoding a sphere into slot 0 of a buffer whose
word at byte offset 116 is the nonzero pattern `7` leaves that word nonzero,
refuting the claim that offsets 116–127 are zero-filled after `writeEncoded`. -/
theorem c6_counterexample :
    ¬ Word32.isZero ((writeToUniformBuffer spherePrim padBuf 0) 116) := by
  decide

/-- C6 (amended): after encoding at slot `k`, every *field word* that is not
meaningful for the variant is written as float `0.0` — a Sphere zeroes the
plane-normal, rectangle-size and box-size fields; a Plane zeroes the radius,
rectangle-size and box-size fields; a Rectangle zeroes the radius,
plane-normal and box-size fields — while the trailing padding bytes at slot
offsets 116 through 127 are not written at all (they keep the previous buffer
contents). -/
theorem unused_zero_c6 (buf : Buffer) (k : ℕ) :
    (∀ (pos ori : Vec3Q) (m : MaterialInfo) (r : ℚ),
      (writeToUniformBuffer (.sphere pos ori m r) buf k) (k * 128 + 48) = .f32 0 ∧
      (writeToUniformBuffer (.sphere pos ori m r) buf k) (k * 128 + 52) = .f32 0 ∧
      (writeToUniformBuffer (.sphere pos ori m r) buf k) (k * 128 + 56) = .f32 0 ∧
      (writeToUniformBuffer (.sphere pos ori m r) buf k) (k * 128 + 64) = .f32 0 ∧
      (writeToUniformBuffer (.sphere pos ori m r) buf k) (k * 128 + 68) = .f32 0 ∧
      (writeToUniformBuffer (.sphere pos ori m r) buf k) (k * 128 + 80) = .f32 0 ∧
      (writeToUniformBuffer (.sphere pos ori m r) buf k) (k * 128 + 84) = .f32 0 ∧
      (writeToUniformBuffer (.sphere pos ori m r) buf k) (k * 128 + 88) = .f32 0) ∧
    (∀ (pos ori : Vec3Q) (m : MaterialInfo) (n : Vec3Q),
      (writeToUniformBuffer (.plane pos ori m n) buf k) (k * 128 + 44) = .f32 0 ∧
      (writeToUniformBuffer (.plane pos ori m n) buf k) (k * 128 + 64) = .f32 0 ∧
      (writeToUniformBuffer (.plane pos ori m n) buf k) (k * 128 + 68) = .f32 0 ∧
      (writeToUniformBuffer (.plane pos ori m n) buf k) (k * 128 + 80) = .f32 0 ∧
      (writeToUniformBuffer (.plane pos ori m n) buf k) (k * 128 + 84) = .f32 0 ∧
      (writeToUniformBuffer (.plane pos ori m n) buf k) (k * 128 + 88) = .f32 0) ∧
    (∀ (pos ori : Vec3Q) (m : MaterialInfo) (s : Vec2Q),
      (writeToUniformBuffer (.rectangle pos ori m s) buf k) (k * 128 + 44) = .f32 0 ∧
      (writeToUniformBuffer (.rectangle pos ori m s) buf k) (k * 128 + 48) = .f32 0 ∧
      (writeToUniformBuffer (.rectangle pos ori m s) buf k) (k * 128 + 52) = .f32 0 ∧
      (writeToUniformBuffer (.rectangle pos ori m s) buf k) (k * 128 + 56) = .f32 0 ∧
      (writeToUniformBuffer (.rectangle pos ori m s) buf k) (k * 128 + 80) = .f32 0 ∧
      (writeToUniformBuffer (.rectangle pos ori m s) buf k) (k * 128 + 84) = .f32 0 ∧
      (writeToUniformBuffer (.rectangle pos ori m s) buf k) (k * 128 + 88) = .f32 0) ∧
    (∀ (p : Primitive) (i : ℕ), k * 128 + 116 ≤ i → i < k * 128 + 128 →
      writeToUniformBuffer p buf k i = buf i) := by
  refine ⟨fun pos ori m r => ?_, fun pos ori m n => ?_, fun pos ori m s => ?_,
    fun p i h1 h2 => ?_⟩ <;>
    simp (disch := omega) only [writeToUniformBuffer_apply, if_pos, if_neg, if_true,
      eq_self_iff_true, and_self, Primitive.shapeScalar, Primitive.shapeVec3,
      Primitive.shapeVec2, Primitive.shapeVec3b, Vec3Q.zero, Vec2Q.zero]

/-- Witness for C6 (amended) at a concrete primitive, buffer and offset. -/
theorem c6_witness :
    (writeToUniformBuffer spherePrim padBuf 0) 120 = padBuf 120 :=
  (unused_zero_c6 padBuf 0).2.2.2 spherePrim 120 (by norm_num) (by norm_num)

/-- C5 counterexample: with `lastFpsCounterUpdatedTime = 0`, an update at
`now = 10^9` ns — exactly 1000 ms elapsed, so "at least 1000 ms" holds — does
*not* raise the FPS-ready flag (the source requires strictly more than 1000
truncated milliseconds); and an update at `now = 1.002·10^9` ns that does
fire leaves `framesCount = 1`, not `0`, because the counter is incremented
after the reset inside the same call. -/
theorem c5_counterexample :
    ((1000 : ℤ) * 1000000 ≤ 1000000000 - timer0.lastFpsCounterUpdatedTime ∧
      (updateTimer 1000000000 timer0).fpsCounterReady = false) ∧
    ((updateTimer 1002000000 timer0).fpsCounterReady = true ∧
      (updateTimer 1002000000 timer0).framesCount ≠ 0) := by
  decide

/-- C5 (amended): `updateTimer` raises the FPS-ready flag exactly when
strictly more than 1000 (truncated) milliseconds elapsed since
`lastFpsCounterUpdatedTime`; in that case it sets `fps` to the frame count
accumulated before this call, resets the frame counter and then increments it
(so it reads 1 after the call), and moves `lastFpsCounterUpdatedTime` to the
new current tick; otherwise the flag is false after the call, the counter is
simply incremented, and `fps` and `lastFpsCounterUpdatedTime` are unchanged. -/
theorem timer_update_c5 (t : Timer) (now : ℤ) :
    (1000 < durationCastMilliseconds (now - t.lastFpsCounterUpdatedTime) →
      (updateTimer now t).fps = t.framesCount ∧
      (updateTimer now t).framesCount = 1 ∧
      (updateTimer now t).lastFpsCounterUpdatedTime = now ∧
      (updateTimer now t).fpsCounterReady = true) ∧
    (durationCastMilliseconds (now - t.lastFpsCounterUpdatedTime) ≤ 1000 →
      (updateTimer now t).fpsCounterReady = false ∧
      (updateTimer now t).framesCount = t.framesCount + 1 ∧
      (updateTimer now t).fps = t.fps ∧
      (updateTimer now t).lastFpsCounterUpdatedTime = t.lastFpsCounterUpdatedTime) ∧
    ((updateTimer now t).fpsCounterReady = true ↔
      1000 < durationCastMilliseconds (now - t.lastFpsCounterUpdatedTime)) := by
  by_cases h : 1000 < durationCastMilliseconds (now - t.lastFpsCounterUpdatedTime)
  · simp [updateTimer, h]
  · simp [updateTimer, h]

/-- Witness for C5 (amended): the firing branch at the concrete state
`timer0` and `now = 1.002·10^9` ns. -/
theorem timer_update_c5_witness :
    1000 < durationCastMilliseconds (1002000000 - timer0.lastFpsCounterUpdatedTime) ∧
      (updateTimer 1002000000 timer0).fps = timer0.framesCount :=
  ⟨by decide, ((timer_update_c5 timer0 1002000000).1 (by decide)).1⟩

/-- Componentwise unfolding of the `Vec3` addition instance. -/
theorem Vec3.add_def (u v : Vec3) : u + v = ⟨u.x + v.x, u.y + v.y, u.z + v.z⟩ := rfl

/-- C9: `setPosition(p, false)` and `setOrientation(o, false)` update only the
position or orientation field respectively; the model, view, projection and
inverse-projection matrices, both velocity vectors, and every other field are
left unchanged (batching escape hatch: matrices refresh only on a later
forced recomputation). -/
theorem set_no_recompute_c9 (c : Camera) (p o : Vec3) :
    c.setPosition p false = { c with position := p } ∧
    (c.setPosition p false).position = p ∧
    (c.setPosition p false).orientation = c.orientation ∧
    (c.setPosition p false).modelMatrix = c.modelMatrix ∧
    (c.setPosition p false).viewMatrix = c.viewMatrix ∧
    (c.setPosition p false).projectionMatrix = c.projectionMatrix ∧
    (c.setPosition p false).projectionInverseMatrix = c.projectionInverseMatrix ∧
    (c.setPosition p false).velocity = c.velocity ∧
    (c.setPosition p false).velocityRel = c.velocityRel ∧
    c.setOrientation o false = { c with orientation := o } ∧
    (c.setOrientation o false).orientation = o ∧
    (c.setOrientation o false).position = c.position ∧
    (c.setOrientation o false).modelMatrix = c.modelMatrix ∧
    (c.setOrientation o false).viewMatrix = c.viewMatrix ∧
    (c.setOrientation o false).projectionMatrix = c.projectionMatrix ∧
    (c.setOrientation o false).projectionInverseMatrix = c.projectionInverseMatrix ∧
    (c.setOrientation o false).velocity = c.velocity ∧
    (c.setOrientation o false).velocityRel = c.velocityRel := by
  simp [Camera.setPosition, Camera.setOrientation]

/-- C10: `getVelocity()` returns the camera-local velocity field: after
`setVelocity(w)` and `setVelocityRel(l)` in either order it returns `l`, the
same value `getVelocityRel()` returns; neither getter observes the
world-space field, which enters only `updatePlacement`'s position
integration. -/
theorem getVelocity_local_c10 (c : Camera) (w l : Vec3) (dt : ℝ) :
    ((c.setVelocity w).setVelocityRel l).getVelocity = l ∧
    ((c.setVelocityRel l).setVelocity w).getVelocity = l ∧
    ((c.setVelocity w).setVelocityRel l).getVelocityRel = l ∧
    ((c.setVelocityRel l).setVelocity w).getVelocityRel = l ∧
    (c.setVelocity w).getVelocity = c.getVelocity ∧
    (c.setVelocity w).getVelocityRel = c.getVelocityRel ∧
    ((c.setVelocity w).updatePlacement dt).position =
      c.position + w.scale dt +
        (mulVec3 c.makeRotationMatrixQuaternion3x3 c.velocityRel).scale dt := by
  simp [Camera.setVelocity, Camera.setVelocityRel, Camera.getVelocity,
    Camera.getVelocityRel, Camera.updatePlacement, Camera.updateModelMatrix,
    Camera.updateViewMatrix, Camera.makeRotationMatrixQuaternion3x3]

/-- C3: `updatePlacement(dt)` adds `velocityWorld·dt` and then
`R(orientation)·velocityLocal·dt` to the position, with `R` the 3×3 rotation
of the same quaternion used for the model matrix, evaluated at the pre-update
orientation; it then recomputes the model and view matrices; in particular
from the default camera with `velocityWorld = (0,1,0)`,
`updatePlacement(0.5)` yields position `(0, 0.5, 0)`. -/
theorem updatePlacement_c3 (c : Camera) (dt : ℝ) :
    (c.updatePlacement dt).position =
      c.position + c.velocity.scale dt +
        (mulVec3 c.makeRotationMatrixQuaternion3x3 c.velocityRel).scale dt ∧
    (c.updatePlacement dt).orientation = c.orientation ∧
    (c.updatePlacement dt).modelMatrix =
      translate 1 (c.updatePlacement dt).position *
        (c.updatePlacement dt).makeRotationMatrixQuaternion ∧
    (c.updatePlacement dt).viewMatrix = ((c.updatePlacement dt).modelMatrix)⁻¹ ∧
    (∀ i j : Fin 3, c.makeRotationMatrixQuaternion i.castSucc j.castSucc =
      c.makeRotationMatrixQuaternion3x3 i j) ∧
    ((cameraDefault.setVelocity ⟨0, 1, 0⟩).updatePlacement (1/2)).position =
      ⟨0, 1/2, 0⟩ := by
  refine ⟨?_, ?_, ?_, ?_, ?_, ?_⟩
  · simp [Camera.updatePlacement, Camera.updateModelMatrix, Camera.updateViewMatrix,
      Camera.makeRotationMatrixQuaternion3x3]
  · simp [Camera.updatePlacement, Camera.updateModelMatrix, Camera.updateViewMatrix]
  · simp [Camera.updatePlacement, Camera.updateModelMatrix, Camera.updateViewMatrix,
      Camera.makeRotationMatrixQuaternion]
  · simp [Camera.updatePlacement, Camera.updateModelMatrix, Camera.updateViewMatrix,
      Camera.makeRotationMatrixQuaternion]
  · intro i j
    simp [Camera.makeRotationMatrixQuaternion, Camera.makeRotationMatrixQuaternion3x3,
      toMat4, Fin.is_lt]
  · simp [Camera.updatePlacement, Camera.updateModelMatrix, Camera.updateViewMatrix,
      Camera.setVelocity, cameraDefault, Camera.construct, Camera.updateProjectionMatrix,
      mulVec3, Vec3.scale, Vec3.add_def]

/-- Helper for C2: every single mutator re-establishes the model/view sync
invariant, whatever the starting state. -/
theorem applyCmd_sync (c : Camera) (cmd : Cmd) :
    (applyCmd c cmd).viewMatrix = ((applyCmd c cmd).modelMatrix)⁻¹ ∧
    (applyCmd c cmd).modelMatrix =
      translate 1 (applyCmd c cmd).position *
        (applyCmd c cmd).makeRotationMatrixQuaternion := by
  cases cmd <;>
    simp [applyCmd, Camera.setPosition, Camera.setOrientation, Camera.updatePlacement,
      Camera.updateModelMatrix, Camera.updateViewMatrix,
      Camera.makeRotationMatrixQuaternion]

/-- Helper for C2: the sync invariant is preserved by any mutator sequence. -/
theorem applyCmds_sync_aux (xs : List Cmd) (c : Camera)
    (h : c.viewMatrix = (c.modelMatrix)⁻¹ ∧
      c.modelMatrix = translate 1 c.position * c.makeRotationMatrixQuaternion) :
    (applyCmds c xs).viewMatrix = ((applyCmds c xs).modelMatrix)⁻¹ ∧
    (applyCmds c xs).modelMatrix =
      translate 1 (applyCmds c xs).position *
        (applyCmds c xs).makeRotationMatrixQuaternion := by
  induction xs generalizing c with
  | nil => simpa [applyCmds] using h
  | cons x xs ih =>
      simp only [applyCmds, List.foldl_cons] at *
      exact ih (applyCmd c x) (applyCmd_sync c x)

/-- C2: after every call of a nonempty sequence of `setPosition` /
`setOrientation` (update flag `true`) / `updatePlacement` mutators — every
nonempty prefix being itself such a sequence — the view matrix equals the
inverse of the model matrix and the model matrix equals
`translate(position) * rotationQuaternion(orientation)`. -/
theorem matrix_sync_c2 (c : Camera) (cmds : List Cmd) (h : cmds ≠ []) :
    (applyCmds c cmds).viewMatrix = ((applyCmds c cmds).modelMatrix)⁻¹ ∧
    (applyCmds c cmds).modelMatrix =
      translate 1 (applyCmds c cmds).position *
        (applyCmds c cmds).makeRotationMatrixQuaternion := by
  obtain ⟨x, xs, rfl⟩ := List.exists_cons_of_ne_nil h
  simp only [applyCmds, List.foldl_cons]
  exact applyCmds_sync_aux xs (applyCmd c x) (applyCmd_sync c x)

/-- Witness for C2 at a concrete camera and mutator list. -/
theorem matrix_sync_c2_witness :
    ([Cmd.setPos ⟨1, 2, 3⟩] ≠ []) ∧
    ((applyCmds cameraDefault [Cmd.setPos ⟨1, 2, 3⟩]).viewMatrix =
      ((applyCmds cameraDefault [Cmd.setPos ⟨1, 2, 3⟩]).modelMatrix)⁻¹ ∧
    (applyCmds cameraDefault [Cmd.setPos ⟨1, 2, 3⟩]).modelMatrix =
      translate 1 (applyCmds cameraDefault [Cmd.setPos ⟨1, 2, 3⟩]).position *
        (applyCmds cameraDefault [Cmd.setPos ⟨1, 2, 3⟩]).makeRotationMatrixQuaternion) :=
  ⟨by simp, matrix_sync_c2 cameraDefault [Cmd.setPos ⟨1, 2, 3⟩] (by simp)⟩


/-- The `glm` Euler-angle quaternion is the Hamilton product `qZ * qY * qX`
of the three half-angle axis quaternions. -/
theorem quatFromEulerAngles_eq_mul (e : Vec3) :
    quatFromEulerAngles e =
      quatMul (quatMul ⟨Real.cos (e.z * (1/2)), 0, 0, Real.sin (e.z * (1/2))⟩
          ⟨Real.cos (e.y * (1/2)), 0, Real.sin (e.y * (1/2)), 0⟩)
        ⟨Real.cos (e.x * (1/2)), Real.sin (e.x * (1/2)), 0, 0⟩ := by
  simp only [quatFromEulerAngles, quatMul, Quat.mk.injEq]
  refine ⟨by ring, by ring, by ring, by ring⟩

/-- The homogeneous quaternion-to-matrix map is multiplicative (a polynomial
identity, no unit-norm hypothesis needed). -/
theorem Hmat_mul (p q : Quat) : Hmat (quatMul p q) = Hmat p * Hmat q := by
  ext i j
  fin_cases i <;> fin_cases j <;>
    simp [Hmat, quatMul, Matrix.mul_apply, Fin.sum_univ_three] <;> ring

/-- `mat3_cast` differs from the homogeneous map by `(1 - ‖q‖²)·I`. -/
theorem mat3_cast_eq_Hmat (q : Quat) :
    mat3_cast q = Hmat q + (1 - q.normSq) • (1 : Mat3) := by
  ext i j
  fin_cases i <;> fin_cases j <;>
    simp [mat3_cast, Hmat, Quat.normSq, Matrix.one_apply] <;> ring

/-- On unit quaternions `mat3_cast` agrees with the homogeneous map. -/
theorem mat3_cast_unit (q : Quat) (h : q.normSq = 1) : mat3_cast q = Hmat q := by
  rw [mat3_cast_eq_Hmat, h]
  simp

/-- The quaternion squared norm is multiplicative. -/
theorem normSq_quatMul (p q : Quat) :
    (quatMul p q).normSq = p.normSq * q.normSq := by
  simp only [quatMul, Quat.normSq]
  ring

/-- Half-angle X-axis quaternions are unit. -/
theorem normSq_axisX (t : ℝ) :
    Quat.normSq ⟨Real.cos t, Real.sin t, 0, 0⟩ = 1 := by
  simp only [Quat.normSq]
  linear_combination Real.sin_sq_add_cos_sq t

/-- Half-angle Y-axis quaternions are unit. -/
theorem normSq_axisY (t : ℝ) :
    Quat.normSq ⟨Real.cos t, 0, Real.sin t, 0⟩ = 1 := by
  simp only [Quat.normSq]
  linear_combination Real.sin_sq_add_cos_sq t

/-- Half-angle Z-axis quaternions are unit. -/
theorem normSq_axisZ (t : ℝ) :
    Quat.normSq ⟨Real.cos t, 0, 0, Real.sin t⟩ = 1 := by
  simp only [Quat.normSq]
  linear_combination Real.sin_sq_add_cos_sq t

/-- The identity-bordered 4×4 embedding is multiplicative. -/
theorem toMat4_mul (A B : Mat3) : toMat4 (A * B) = toMat4 A * toMat4 B := by
  ext i j
  fin_cases i <;> fin_cases j <;>
    simp [toMat4, Matrix.mul_apply, Fin.sum_univ_four, Fin.sum_univ_three,
      show ((0 : Fin 4) : ℕ) < 3 from by decide,
      show ((1 : Fin 4) : ℕ) < 3 from by decide,
      show ((2 : Fin 4) : ℕ) < 3 from by decide,
      show ¬((3 : Fin 4) : ℕ) < 3 from by decide]


/-- The `glm::rotate` matrix about the X axis is the quaternion matrix of the
half-angle X quaternion (double-angle identities). -/
theorem rotationMatrix4_axisX (t : ℝ) :
    rotationMatrix4 t ⟨1, 0, 0⟩ =
      toMat4 (mat3_cast ⟨Real.cos (t * (1/2)), Real.sin (t * (1/2)), 0, 0⟩) := by
  have hsum := Real.sin_sq_add_cos_sq (t * (1/2))
  have h2 : 2 * (t * (1/2)) = t := by ring
  have hc : Real.cos t = 1 - 2 * Real.sin (t * (1/2)) ^ 2 := by
    have h1 := Real.cos_two_mul (t * (1/2))
    rw [h2] at h1
    linear_combination h1 + 2 * hsum
  have hs : Real.sin t = 2 * Real.sin (t * (1/2)) * Real.cos (t * (1/2)) := by
    have h1 := Real.sin_two_mul (t * (1/2))
    rw [h2] at h1
    exact h1
  ext i j
  fin_cases i <;> fin_cases j <;>
    simp [rotationMatrix4, toMat4, mat3_cast, normalize, Real.sqrt_one, hc, hs,
      Matrix.vecHead, Matrix.vecTail,
      show ((0 : Fin 4) : ℕ) < 3 from by decide,
      show ((1 : Fin 4) : ℕ) < 3 from by decide,
      show ((2 : Fin 4) : ℕ) < 3 from by decide,
      show ¬((3 : Fin 4) : ℕ) < 3 from by decide] <;>
    ring

/-- The `glm::rotate` matrix about the Y axis is the quaternion matrix of the
half-angle Y quaternion. -/
theorem rotationMatrix4_axisY (t : ℝ) :
    rotationMatrix4 t ⟨0, 1, 0⟩ =
      toMat4 (mat3_cast ⟨Real.cos (t * (1/2)), 0, Real.sin (t * (1/2)), 0⟩) := by
  have hsum := Real.sin_sq_add_cos_sq (t * (1/2))
  have h2 : 2 * (t * (1/2)) = t := by ring
  have hc : Real.cos t = 1 - 2 * Real.sin (t * (1/2)) ^ 2 := by
    have h1 := Real.cos_two_mul (t * (1/2))
    rw [h2] at h1
    linear_combination h1 + 2 * hsum
  have hs : Real.sin t = 2 * Real.sin (t * (1/2)) * Real.cos (t * (1/2)) := by
    have h1 := Real.sin_two_mul (t * (1/2))
    rw [h2] at h1
    exact h1
  ext i j
  fin_cases i <;> fin_cases j <;>
    simp [rotationMatrix4, toMat4, mat3_cast, normalize, Real.sqrt_one, hc, hs,
      Matrix.vecHead, Matrix.vecTail,
      show ((0 : Fin 4) : ℕ) < 3 from by decide,
      show ((1 : Fin 4) : ℕ) < 3 from by decide,
      show ((2 : Fin 4) : ℕ) < 3 from by decide,
      show ¬((3 : Fin 4) : ℕ) < 3 from by decide] <;>
    ring

/-- The `glm::rotate` matrix about the Z axis is the quaternion matrix of the
half-angle Z quaternion. -/
theorem rotationMatrix4_axisZ (t : ℝ) :
    rotationMatrix4 t ⟨0, 0, 1⟩ =
      toMat4 (mat3_cast ⟨Real.cos (t * (1/2)), 0, 0, Real.sin (t * (1/2))⟩) := by
  have hsum := Real.sin_sq_add_cos_sq (t * (1/2))
  have h2 : 2 * (t * (1/2)) = t := by ring
  have hc : Real.cos t = 1 - 2 * Real.sin (t * (1/2)) ^ 2 := by
    have h1 := Real.cos_two_mul (t * (1/2))
    rw [h2] at h1
    linear_combination h1 + 2 * hsum
  have hs : Real.sin t = 2 * Real.sin (t * (1/2)) * Real.cos (t * (1/2)) := by
    have h1 := Real.sin_two_mul (t * (1/2))
    rw [h2] at h1
    exact h1
  ext i j
  fin_cases i <;> fin_cases j <;>
    simp [rotationMatrix4, toMat4, mat3_cast, normalize, Real.sqrt_one, hc, hs,
      Matrix.vecHead, Matrix.vecTail,
      show ((0 : Fin 4) : ℕ) < 3 from by decide,
      show ((1 : Fin 4) : ℕ) < 3 from by decide,
      show ((2 : Fin 4) : ℕ) < 3 from by decide,
      show ¬((3 : Fin 4) : ℕ) < 3 from by decide] <;>
    ring

/-- C4 (amended): the quaternion rotation matrix equals the sequential
per-axis rotation product taken in the order Z, Y, X — not X, Y, Z as
claimed — for every orientation. -/
theorem rotation_quat_eq_ZYX_c4 (c : Camera) :
    c.makeRotationMatrixQuaternion = c.makeRotationMatrix .eAxisZ .eAxisY .eAxisX := by
  simp only [Camera.makeRotationMatrix, Camera.makeRotationMatrixQuaternion,
    rotate, one_mul]
  rw [rotationMatrix4_axisZ, rotationMatrix4_axisY, rotationMatrix4_axisX,
    ← toMat4_mul, ← toMat4_mul]
  have hx := normSq_axisX (radians c.orientation.x * (1/2))
  have hy := normSq_axisY (radians c.orientation.y * (1/2))
  have hz := normSq_axisZ (radians c.orientation.z * (1/2))
  rw [quatFromEulerAngles_eq_mul]
  rw [mat3_cast_unit _ (by rw [normSq_quatMul, normSq_quatMul, hx, hy, hz]; ring),
    mat3_cast_unit _ hz, mat3_cast_unit _ hy, mat3_cast_unit _ hx,
    Hmat_mul, Hmat_mul]


/-- `glm::radians(90) = π/2`. -/
theorem radians_ninety : radians 90 = Real.pi / 2 := by
  simp only [radians]
  ring

/-- `glm::radians(0) = 0`. -/
theorem radians_zero : radians 0 = 0 := by
  simp only [radians]
  ring

/-- C4 counterexample: at orientation `(90, 90, 0)` degrees the
quaternion-built rotation matrix and the sequential X,Y,Z rotation matrix
differ in their 3×3 rotation blocks at entry `(0, 1)` (value `1` versus `0`),
so the claimed X,Y,Z order equivalence fails. -/
theorem c4_counterexample :
    camC4.makeRotationMatrixQuaternion 0 1 ≠
      camC4.makeRotationMatrix .eAxisX .eAxisY .eAxisZ 0 1 := by
  have hor : camC4.orientation = ⟨90, 90, 0⟩ := rfl
  have hhalf : Real.pi / 2 * (2 : ℝ)⁻¹ = Real.pi / 4 := by ring
  have h2 : Real.sqrt 2 ^ 2 = 2 := Real.sq_sqrt (by norm_num)
  have hL : camC4.makeRotationMatrixQuaternion 0 1 = 1 := by
    simp only [Camera.makeRotationMatrixQuaternion, hor, radians_ninety, radians_zero]
    simp [toMat4, mat3_cast, quatFromEulerAngles, hhalf,
      Real.cos_pi_div_four, Real.sin_pi_div_four,
      show ((0 : Fin 4) : ℕ) < 3 from by decide,
      show ((1 : Fin 4) : ℕ) < 3 from by decide]
    linear_combination ((Real.sqrt 2 ^ 2 + 2) / 4) * h2
  have hR : camC4.makeRotationMatrix .eAxisX .eAxisY .eAxisZ 0 1 = 0 := by
    simp only [Camera.makeRotationMatrix, hor, radians_ninety, radians_zero, rotate, one_mul]
    simp [rotationMatrix4, normalize, Matrix.mul_apply, Fin.sum_univ_four,
      Matrix.vecHead, Matrix.vecTail, Real.sqrt_one,
      Real.cos_pi_div_two, Real.sin_pi_div_two]
  rw [hL, hR]
  norm_num

end PathTracingGL
